import Mathlib

/-!
# Verification of `frame_video_streamer.py`

A shallow embedding of the frame-streaming pipeline from
`src/frame_video_streamer.py`: the fixed 4-color grayscale palette, the
palette quantizer, the decimating frame producer, the bounded pipeline
queue, the sprite packetizer and the consumer loop, together with the
`main` entry point's exit behavior.

Pixels are natural numbers (8-bit intensities), frames are row-major
lists, and the two concurrently scheduled tasks are embedded as pure
functions over the finite list of items that crosses the queue, plus a
guarded transition relation for the queue's blocking behavior.

External library calls (cv2, PIL, `frame_msg`) that the source delegates
to are modelled from the spec; each such definition carries a
`Modelled from the spec:` doc comment naming what is missing from `src/`.
-/

/-- Message id every ImageSpriteBlock packet is tagged with
(`ISB_MESSAGE_ID = 0x20`, line 20 of the source). -/
def ISB_MESSAGE_ID : ℕ := 0x20

/-- The fixed 4-color grayscale palette (`FIXED_PALETTE_4_COLORS`,
lines 24-26 of the source): four RGB triples. -/
def FIXED_PALETTE_4_COLORS : List (List ℕ) :=
  [[0, 0, 0], [85, 85, 85], [170, 170, 170], [255, 255, 255]]

/-- `self.palette_bytes = FIXED_PALETTE_4_COLORS.astype(np.uint8).tobytes()`
(line 36): the palette flattened row-major to bytes, each component
reduced mod 2^8 by the uint8 cast. -/
def paletteBytes : List ℕ := FIXED_PALETTE_4_COLORS.flatten.map (· % 256)

/-- A raw decoded video frame: rows of BGR triples (cv2 delivers BGR). -/
abbrev RawFrame := List (List (ℕ × ℕ × ℕ))

/-- A grayscale frame: rows of 8-bit intensities. -/
abbrev GrayFrame := List (List ℕ)

/-- Modelled from the spec: `cv2.cvtColor(frame_data, cv2.COLOR_BGR2GRAY)`
(line 93; cv2 is not under `src/`) — "Converts each emitted frame to
single-channel grayscale", as rounded ITU-R BT.601 luma of a BGR triple. -/
def bgrToGray (p : ℕ × ℕ × ℕ) : ℕ := (114 * p.1 + 587 * p.2.1 + 299 * p.2.2 + 500) / 1000

/-- Grayscale conversion of a whole frame, pixel by pixel. -/
def cvtGray (f : RawFrame) : GrayFrame := f.map (fun row => row.map bgrToGray)

/-- Python's built-in `round` on a rational: nearest integer, ties to the
even neighbour (banker's rounding), used at line 85 of the source. -/
def pyRound (q : ℚ) : ℤ :=
  if q - Int.floor q < 1/2 then Int.floor q
  else if (1:ℚ)/2 < q - Int.floor q then Int.floor q + 1
  else if Even (Int.floor q) then Int.floor q else Int.floor q + 1

/-- `source_fps = cap.get(cv2.CAP_PROP_FPS) or 30` (line 84): cv2 reports
`0.0` when the rate is unknown, and Python's `or` then substitutes 30. -/
def effectiveFps (reported : ℚ) : ℚ := if reported = 0 then 30 else reported

/-- `frame_step = max(1, round(source_fps / self.fps_limit))` (line 85). -/
def frameStep (reported fpsLimit : ℚ) : ℕ :=
  max 1 (pyRound (effectiveFps reported / fpsLimit)).toNat

/-- Observable actions of the producer task `_frame_producer`:
acquiring the capture handle, enqueueing an item (`some` gray frame, or
`none` for the end-of-stream marker `None`), and `cap.release()`. -/
inductive PEvent
  | acquire
  | put (item : Option GrayFrame)
  | release
deriving DecidableEq

/-- The producer's `while self.running:` loop (lines 88-95): each
iteration observes the running flag, reads a frame (`frames` lists the
reads that return `ret == True`; exhaustion and read failure both end the
list), enqueues the grayscale conversion when `frame_number % frame_step
== 0`, and increments `frame_number`.  `fuel` models the running flag:
`0` means the flag was observed false at the top of the loop. -/
def producerLoopTr : List RawFrame → ℕ → ℕ → ℕ → List PEvent
  | _, _, _, 0 => []
  | [], _, _, _ + 1 => []
  | f :: rest, step, n, fuel + 1 =>
      (if n % step = 0 then [PEvent.put (some (cvtGray f))] else [])
        ++ producerLoopTr rest step (n + 1) fuel

/-- The whole of `_frame_producer` (lines 77-97) as an event trace:
`cv2.VideoCapture` acquires the handle; if `cap.isOpened()` is false the
producer prints an error, clears the running flag and returns (no marker,
no release); otherwise it runs the loop, enqueues the terminal `None`
marker, and finally calls `cap.release()`. -/
def producerTrace (openOk : Bool) (frames : List RawFrame) (step fuel : ℕ) : List PEvent :=
  if openOk then
    PEvent.acquire :: (producerLoopTr frames step 0 fuel ++ [PEvent.put none, PEvent.release])
  else [PEvent.acquire]

/-- Projects a trace event to the queue item it enqueues, if any. -/
def putItem : PEvent → Option (Option GrayFrame)
  | PEvent.put x => some x
  | _ => none

/-- The sequence of items a successfully-opened producer run places on the
pipeline queue, in order. -/
def producerItems (frames : List RawFrame) (step fuel : ℕ) : List (Option GrayFrame) :=
  (producerTrace true frames step fuel).filterMap putItem

/-- The per-session state built by `FinalStreamer.__init__` (lines 29-39):
target dimensions, fps limit, and the palette bytes computed once. -/
structure FinalStreamer where
  width : ℕ
  height : ℕ
  fps_limit : ℕ
  palette_bytes : List ℕ
deriving DecidableEq

/-- `FinalStreamer(file_path, width, height, fps_limit)`: the constructor
computes `palette_bytes` from the module-level fixed palette. -/
def FinalStreamer.init (w h fps : ℕ) : FinalStreamer :=
  { width := w, height := h, fps_limit := fps, palette_bytes := paletteBytes }

/-- Modelled from the spec: `Image.resize((width, height),
Image.Resampling.NEAREST)` (line 107; PIL is not under `src/`) —
"nearest-neighbor resampling to (target_w, target_h)", row-major output. -/
def resizeNN (g : GrayFrame) (w h : ℕ) : List ℕ :=
  (List.range h).flatMap (fun y =>
    (List.range w).map (fun x =>
      (g.getD (y * g.length / h) []).getD (x * (g.headD []).length / w) 0))

/-- Squared distance between two intensity components. -/
def sqDist (a b : ℕ) : ℕ := (((a : ℤ) - b).natAbs) ^ 2

/-- Squared Euclidean distance between two RGB triples. -/
def rgbDist (c d : List ℕ) : ℕ := ((c.zip d).map (fun p => sqDist p.1 p.2)).sum

/-- `img.convert('RGB')` promotion of a gray sample to a 3-channel pixel
(line 109). -/
def grayRGB (v : ℕ) : List ℕ := [v, v, v]

/-- Modelled from the spec: `img_rgb.quantize(palette=self.palette_image)`
(line 111; PIL is not under `src/`) — "Converts each grayscale sample to
the nearest palette entry by minimizing a distance metric", deterministic
with the first minimum taken on ties. -/
def quantizeIndex (v : ℕ) : ℕ :=
  ((FIXED_PALETTE_4_COLORS.map (fun c => rgbDist (grayRGB v) c)).enum.foldl
    (fun best c => if c.2 < best.2 then c else best)
    (0, rgbDist (grayRGB v) [0, 0, 0])).1

/-- Quantization of a whole (row-major) pixel list, as performed by
`quantize` followed by `tobytes()` (lines 111-112). -/
def quantizeImage (px : List ℕ) : List ℕ := px.map quantizeIndex

/-- The gray level the palette assigns to an index: entry `i` of the
fixed palette read back as an intensity. -/
def palGray (i : ℕ) : ℕ := (FIXED_PALETTE_4_COLORS.getD i []).headD 0

/-- The row-major indexed pixel bytes the consumer computes for one
queued gray frame (lines 107-112): nearest-neighbor resize to the target
resolution, then palette quantization. -/
def encodedPixels (s : FinalStreamer) (g : GrayFrame) : List ℕ :=
  quantizeImage (resizeNN g s.width s.height)

/-- The sprite value handed to `TxSprite(...)` at lines 114-117. -/
structure TxSprite where
  width : ℕ
  height : ℕ
  num_colors : ℕ
  palette_data : List ℕ
  pixel_data : List ℕ
deriving DecidableEq

/-- The distinguished encoding failure of the spec's error taxonomy. -/
inductive EncodingError
  | pixelCountMismatch
deriving DecidableEq

/-- Modelled from the spec: construction of a `TxSprite` (the `frame_msg`
library, not under `src/`; only its caller at lines 114-117 is) — "Fails
with `EncodingError` if resize or quantization produces a pixel count
inconsistent with width×height (defensive check)". -/
def mkTxSprite (w h nc : ℕ) (pal px : List ℕ) : Except EncodingError TxSprite :=
  if px.length = w * h then Except.ok ⟨w, h, nc, pal, px⟩
  else Except.error EncodingError.pixelCountMismatch

/-- Modelled from the spec: "bits-per-pixel derived as
ceil(log2(color_count))" — the least `k` with `color_count ≤ 2 ^ k`. -/
def bitsPerPixel (numColors : ℕ) : ℕ :=
  ((List.range (numColors + 1)).filter (fun k => numColors ≤ 2 ^ k)).headD numColors

/-- Payload of one packet handed to `frame.send_message`: either the
whole-sprite header (dimensions, bits-per-pixel, palette bytes, total
line count, line-group height, progressive flag) or one scanline-group
payload carrying its line index and pixel bytes. -/
inductive PacketPayload
  | header (width height bpp : ℕ) (palette : List ℕ) (totalLines lineHeight : ℕ)
      (progressive : Bool)
  | line (index : ℕ) (data : List ℕ)
deriving DecidableEq

/-- A packet on the wire: the message id tag and the payload. -/
abbrev Packet := ℕ × PacketPayload

/-- The block value built at line 118:
`TxImageSpriteBlock(sprite, sprite_line_height=..., progressive_render=...)`. -/
structure TxImageSpriteBlock where
  sprite : TxSprite
  sprite_line_height : ℕ
  progressive_render : Bool
deriving DecidableEq

/-- Modelled from the spec: the number of line packets of a block —
"k == sprite height / line-group height". -/
def isbNumLines (b : TxImageSpriteBlock) : ℕ := b.sprite.height / b.sprite_line_height

/-- Modelled from the spec: `isb.pack()` (the `frame_msg` library, not
under `src/`) — "one header packet describing the whole sprite
(dimensions, bits-per-pixel derived as ceil(log2(color_count)), palette
bytes, line height)", tagged with the message id. -/
def isbHeaderPacket (b : TxImageSpriteBlock) : Packet :=
  (ISB_MESSAGE_ID,
   PacketPayload.header b.sprite.width b.sprite.height (bitsPerPixel b.sprite.num_colors)
     b.sprite.palette_data (isbNumLines b) b.sprite_line_height b.progressive_render)

/-- Modelled from the spec: `isb.sprite_lines` (the `frame_msg` library,
not under `src/`) — "one packet per scanline group", line `i` carrying
the `sprite_line_height` rows starting at row `i * sprite_line_height`,
in increasing line order. -/
def isbLinePackets (b : TxImageSpriteBlock) : List Packet :=
  (List.range (isbNumLines b)).map (fun i =>
    (ISB_MESSAGE_ID,
     PacketPayload.line i
       ((b.sprite.pixel_data.drop (i * (b.sprite_line_height * b.sprite.width))).take
         (b.sprite_line_height * b.sprite.width))))

/-- The full packet sequence the consumer sends for one block
(lines 120-122): the packed header, then each sprite line in order. -/
def isbPackets (b : TxImageSpriteBlock) : List Packet :=
  isbHeaderPacket b :: isbLinePackets b

/-- The sprite the consumer builds for one queued gray frame
(lines 114-117): target dimensions, 4 colors, the session palette bytes,
and the resized-and-quantized pixels. -/
def frameSprite (s : FinalStreamer) (g : GrayFrame) : TxSprite :=
  ⟨s.width, s.height, 4, s.palette_bytes, encodedPixels s g⟩

/-- The block the consumer builds at line 118:
`TxImageSpriteBlock(sprite, sprite_line_height=sprite.height,
progressive_render=False)`. -/
def frameISB (s : FinalStreamer) (g : GrayFrame) : TxImageSpriteBlock :=
  ⟨frameSprite s g, (frameSprite s g).height, false⟩

/-- All packets the consumer sends for one queued gray frame. -/
def framePackets (s : FinalStreamer) (g : GrayFrame) : List Packet :=
  isbPackets (frameISB s g)

/-- The consumer's encode step routed through the checked sprite
constructor: resize, quantize, construct the sprite, packetize. -/
def encodeFrameChecked (s : FinalStreamer) (g : GrayFrame) :
    Except EncodingError (List Packet) :=
  (mkTxSprite s.width s.height 4 s.palette_bytes (encodedPixels s g)).map
    (fun spr => isbPackets ⟨spr, spr.height, false⟩)

/-- The consumer loop `_frame_consumer` (lines 99-129) over the finite
sequence of items it takes from the queue: a `none` item is the terminal
marker (clear the running flag and break, sending nothing further); a
`some` item is encoded and its packets are sent before the next item is
taken; an encoding failure aborts the session. -/
def consumerLoop (s : FinalStreamer) : List (Option GrayFrame) → List Packet
  | [] => []
  | none :: _ => []
  | some g :: rest =>
      match encodeFrameChecked s g with
      | Except.ok ps => ps ++ consumerLoop s rest
      | Except.error _ => []

/-- The line index of a packet's payload, when it is a line packet. -/
def lineIndexOf : PacketPayload → Option ℕ
  | PacketPayload.line i _ => some i
  | _ => none

/-- Whether a payload is a sprite header. -/
def isHeader : PacketPayload → Bool
  | PacketPayload.header .. => true
  | _ => false

/-- The palette bytes a header payload carries. -/
def packetPalette : PacketPayload → Option (List ℕ)
  | PacketPayload.header _ _ _ pal _ _ _ => some pal
  | _ => none

/-- Observable outcome of running `main` (lines 164-194): the process
exit status, whether the usage error was reported (missing or non-regular
path, lines 179-182), and whether the producer's could-not-open error was
reported (lines 80-83).  When the path is a regular file, `stream()`
catches every exception itself (line 157) and `main` returns normally, so
the interpreter exits with status 0; the open failure only clears the
running flag. -/
structure MainOutcome where
  exitCode : ℕ
  usageError : Bool
  openError : Bool
deriving DecidableEq

/-- `main` composed with `FinalStreamer.stream`, as a function of whether
the path is a regular file and whether cv2 can open it as a video. -/
def mainOutcome (isFile openOk : Bool) : MainOutcome :=
  if isFile then { exitCode := 0, usageError := false, openError := !openOk }
  else { exitCode := 1, usageError := true, openError := false }

/-- `queue = asyncio.Queue(maxsize=4)` (line 152). -/
def QUEUE_CAPACITY : ℕ := 4

/-- State of the producer/consumer pair around the bounded queue: the
queued items (front = oldest) and the frame the producer currently holds
decoded but not yet enqueued. -/
structure PipeState where
  queued : List ℕ
  decoding : Option ℕ
deriving DecidableEq

/-- Modelled from the spec: the blocking `asyncio.Queue` put/get
semantics (the asyncio runtime, not under `src/`) — the producer may
decode one frame at a time, `await queue.put(...)` completes only while
the queue holds fewer than `QUEUE_CAPACITY` items, and the consumer's
`await queue.get()` removes the oldest item. -/
inductive PipeStep : PipeState → PipeState → Prop
  | startDecode (s : PipeState) (n : ℕ) :
      s.decoding = none → PipeStep s ⟨s.queued, some n⟩
  | enqueue (s : PipeState) (n : ℕ) :
      s.decoding = some n → s.queued.length < QUEUE_CAPACITY →
      PipeStep s ⟨s.queued ++ [n], none⟩
  | dequeue (s : PipeState) (x : ℕ) (rest : List ℕ) :
      s.queued = x :: rest → PipeStep s ⟨rest, s.decoding⟩

/-- The pipeline starts with an empty queue and nothing decoded. -/
def pipeInit : PipeState := ⟨[], none⟩

/-- States the pipeline can reach from the initial state. -/
def PipeReachable (s : PipeState) : Prop := Relation.ReflTransGen PipeStep pipeInit s

/-- Frames the producer side holds: queued items plus the one being
decoded, if any. -/
def inFlight (s : PipeState) : ℕ :=
  s.queued.length + (if s.decoding.isSome then 1 else 0)

/-! ## Helper lemmas -/

/-- The nearest-neighbor resize always yields `h * w` samples. -/
theorem resizeNN_length (g : GrayFrame) (w h : ℕ) : (resizeNN g w h).length = h * w := by
  simp [resizeNN, List.length_flatMap, Function.comp_def]

/-- The consumer's resized-and-quantized pixel list always has exactly
width × height entries. -/
theorem encodedPixels_length (s : FinalStreamer) (g : GrayFrame) :
    (encodedPixels s g).length = s.width * s.height := by
  simp [encodedPixels, quantizeImage, resizeNN_length, Nat.mul_comm]

/-- The checked encode step never fails on the consumer's own pixel data,
and produces exactly the per-frame packet sequence. -/
theorem encodeFrameChecked_ok (s : FinalStreamer) (g : GrayFrame) :
    encodeFrameChecked s g = Except.ok (framePackets s g) := by
  simp [encodeFrameChecked, mkTxSprite, encodedPixels_length, framePackets, frameISB,
    frameSprite, Except.map]

/-- The consumer drains the queue items frame by frame: given the frames
followed by the terminal marker, it emits exactly the concatenation of
the per-frame packet sequences, in frame order. -/
theorem consumerLoop_eq_flatMap (s : FinalStreamer) (gs : List GrayFrame) :
    consumerLoop s (gs.map some ++ [none]) = gs.flatMap (framePackets s) := by
  induction gs with
  | nil => simp [consumerLoop]
  | cons g rest ih =>
      simp only [List.map_cons, List.cons_append, consumerLoop, encodeFrameChecked_ok,
        List.flatMap_cons, List.append_eq, ih]

set_option maxRecDepth 4000 in
/-- Per-pixel quantizer facts, checked exhaustively over the 8-bit
domain: the chosen index is below 4 and re-quantizing the palette level
of a chosen index chooses the same index. -/
theorem quantizeIndex_lt_four_and_idem :
    ∀ v < 256, quantizeIndex v < 4 ∧
      quantizeIndex (palGray (quantizeIndex v)) = quantizeIndex v := by
  decide

/-- The producer loop never emits anything but `put` events. -/
theorem producerLoopTr_mem (frames : List RawFrame) (step : ℕ) :
    ∀ n fuel e, e ∈ producerLoopTr frames step n fuel → ∃ x, e = PEvent.put x := by
  induction frames with
  | nil => intro n fuel e he; cases fuel <;> simp [producerLoopTr] at he
  | cons f rest ih =>
      intro n fuel e he
      cases fuel with
      | zero => simp [producerLoopTr] at he
      | succ fu =>
          simp only [producerLoopTr, List.mem_append] at he
          rcases he with he | he
          · by_cases hn : n % step = 0 <;> simp [hn] at he
            exact ⟨_, he⟩
          · exact ih _ _ _ he

/-- The queue items of the producer loop, in closed form: the grayscale
conversions of exactly the frames whose ordinal index is a multiple of
the stride, provided the running flag outlives the source. -/
theorem producerLoopTr_items (frames : List RawFrame) (step : ℕ) :
    ∀ n fuel, frames.length ≤ fuel →
      (producerLoopTr frames step n fuel).filterMap putItem
        = ((List.enumFrom n frames).filter (fun p => p.1 % step = 0)).map
            (fun p => some (cvtGray p.2)) := by
  induction frames with
  | nil => intro n fuel _; cases fuel <;> simp [producerLoopTr]
  | cons f rest ih =>
      intro n fuel hle
      cases fuel with
      | zero => simp at hle
      | succ fu =>
          have hle' : rest.length ≤ fu := by simpa using hle
          by_cases hn : n % step = 0 <;>
            simp [producerLoopTr, hn, putItem, ih (n + 1) fu hle', List.enumFrom]

/-- Every queue item of the producer loop is a real frame (never the
marker). -/
theorem producerLoopTr_items_some (frames : List RawFrame) (step : ℕ) :
    ∀ n fuel, ∃ gs : List GrayFrame,
      (producerLoopTr frames step n fuel).filterMap putItem = gs.map some := by
  induction frames with
  | nil => intro n fuel; exact ⟨[], by cases fuel <;> simp [producerLoopTr]⟩
  | cons f rest ih =>
      intro n fuel
      cases fuel with
      | zero => exact ⟨[], by simp [producerLoopTr]⟩
      | succ fu =>
          obtain ⟨gs, hgs⟩ := ih (n + 1) fu
          by_cases hn : n % step = 0
          · exact ⟨cvtGray f :: gs, by simp [producerLoopTr, hn, putItem, hgs]⟩
          · exact ⟨gs, by simp [producerLoopTr, hn, putItem, hgs]⟩

/-- The producer loop never releases the capture handle itself. -/
theorem producerLoopTr_count_release (frames : List RawFrame) (step : ℕ) :
    ∀ n fuel, (producerLoopTr frames step n fuel).count PEvent.release = 0 := by
  intro n fuel
  rw [List.count_eq_zero]
  intro hmem
  obtain ⟨x, hx⟩ := producerLoopTr_mem frames step n fuel _ hmem
  simp at hx

/-! ## Claim theorems -/

/-- Claim C2: for every source frame rate (defaulting to 30 when the
source reports 0, i.e. none) and positive target rate, the producer's
stride is `max(1, round(R/T))` with Python's rounding, and — when the
running flag outlives the source — the items it enqueues are exactly the
grayscale conversions of the decoded frames whose 0-based ordinal index
is a multiple of the stride, in order, followed by the terminal marker. -/
theorem producer_decimation_stride (R T : ℚ) (hT : 0 < T) (frames : List RawFrame) :
    frameStep R T = max 1 (pyRound (effectiveFps R / T)).toNat
    ∧ effectiveFps 0 = 30
    ∧ producerItems frames (frameStep R T) frames.length
        = ((frames.enum.filter (fun p => p.1 % frameStep R T = 0)).map
            (fun p => some (cvtGray p.2))) ++ [none] := by
  refine ⟨rfl, by norm_num [effectiveFps], ?_⟩
  have h := producerLoopTr_items frames (frameStep R T) 0 frames.length le_rfl
  simp [producerItems, producerTrace, List.filterMap_append, putItem, h, List.enum]

/-- Claim C2 witness: a source reporting 30 fps decimated to a 14 fps
target keeps the frame at index 0 of a one-frame source and then emits
the marker. -/
theorem producer_decimation_stride_witness :
    producerItems [[[(0, 0, 0)]]] (frameStep 30 14) 1
      = [some (cvtGray [[(0, 0, 0)]]), none] := by
  have h := (producer_decimation_stride 30 14 (by norm_num) [[[(0, 0, 0)]]]).2.2
  simpa using h

/-- Claim C3: quantization of any list of 8-bit grayscale samples uses
only palette indices 0 through 3; each produced index denotes one of the
four fixed gray levels 0, 85, 170, 255; and mapping the quantized image
back through the palette and quantizing again reproduces the same index
assignment. -/
theorem quantize_bounded_levels_idempotent (px : List ℕ) (hv : ∀ v ∈ px, v < 256) :
    (∀ i ∈ quantizeImage px, i < 4)
    ∧ (∀ i ∈ quantizeImage px, palGray i = 0 ∨ palGray i = 85 ∨ palGray i = 170 ∨ palGray i = 255)
    ∧ quantizeImage ((quantizeImage px).map palGray) = quantizeImage px := by
  refine ⟨?_, ?_, ?_⟩
  · intro i hi
    simp only [quantizeImage, List.mem_map] at hi
    obtain ⟨v, hvm, rfl⟩ := hi
    exact (quantizeIndex_lt_four_and_idem v (hv v hvm)).1
  · intro i hi
    simp only [quantizeImage, List.mem_map] at hi
    obtain ⟨v, hvm, rfl⟩ := hi
    have h4 := (quantizeIndex_lt_four_and_idem v (hv v hvm)).1
    have hcases : quantizeIndex v = 0 ∨ quantizeIndex v = 1 ∨ quantizeIndex v = 2 ∨
        quantizeIndex v = 3 := by omega
    rcases hcases with h | h | h | h <;> rw [h] <;> decide
  · simp only [quantizeImage, List.map_map]
    refine List.map_congr_left ?_
    intro v hvm
    simp only [Function.comp_apply]
    exact (quantizeIndex_lt_four_and_idem v (hv v hvm)).2

/-- Claim C3 witness: the property evaluated on a concrete image holding
one sample from each quantization bin. -/
theorem quantize_bounded_levels_idempotent_witness :
    (∀ i ∈ quantizeImage [0, 40, 130, 250], i < 4)
    ∧ quantizeImage ((quantizeImage [0, 40, 130, 250]).map palGray)
        = quantizeImage [0, 40, 130, 250] := by
  have h := quantize_bounded_levels_idempotent [0, 40, 130, 250] (by decide)
  exact ⟨h.1, h.2.2⟩

/-- Claim C4: the sprite constructor's defensive check fails with the
distinguished `EncodingError` exactly when the pixel count is
inconsistent with width×height — and the consumer's resize-and-quantize
step always produces a consistent pixel count, so no frame of the
pipeline can trip the check. -/
theorem encode_pixel_count_check :
    (∀ (w h nc : ℕ) (pal px : List ℕ),
      mkTxSprite w h nc pal px = Except.error EncodingError.pixelCountMismatch
        ↔ px.length ≠ w * h)
    ∧ (∀ (w h fps : ℕ) (g : GrayFrame),
        (encodedPixels (FinalStreamer.init w h fps) g).length = w * h) := by
  constructor
  · intro w h nc pal px
    unfold mkTxSprite
    split <;> simp_all
  · intro w h fps g
    simpa [FinalStreamer.init] using encodedPixels_length (FinalStreamer.init w h fps) g

/-- Claim C5 counterexample: a path that is a regular file which cv2
cannot open as a video makes the process exit with status 0 (the open
failure only clears the running flag and `stream()` returns normally),
while the claim demands a nonzero exit status. -/
theorem open_failure_exits_zero :
    (mainOutcome true false).exitCode = 0 ∧ (mainOutcome true false).openError = true := by
  decide

/-- Claim C5 as amended: the process exits nonzero exactly when the path
is missing or not a regular file (reported as a usage error at startup);
when the file exists but cannot be opened as a video, the producer
reports the open failure and the process still exits with status 0. -/
theorem main_exit_characterization :
    ∀ isFile openOk : Bool,
      ((mainOutcome isFile openOk).exitCode ≠ 0 ↔ isFile = false)
      ∧ ((mainOutcome isFile openOk).usageError = !isFile)
      ∧ ((mainOutcome isFile openOk).openError = (isFile && !openOk)) := by
  decide

/-- Claim C1: the consumer's packet stream is the per-frame packet
sequences concatenated in frame order (no packet of a later frame
precedes any packet of the current frame); within a frame the first
packet is the header and the remaining packets are the line packets
whose indices are exactly `0, 1, ..., k-1` for
`k = sprite height / line-group height` — strictly increasing, no gaps —
and every packet is tagged with message id `0x20`. -/
theorem consumer_packet_ordering (s : FinalStreamer) (gs : List GrayFrame) :
    consumerLoop s (gs.map some ++ [none]) = gs.flatMap (framePackets s)
    ∧ (∀ g : GrayFrame, (framePackets s g).head?.map (fun p => isHeader p.2) = some true)
    ∧ (∀ g : GrayFrame, ((framePackets s g).tail).map (fun p => lineIndexOf p.2)
        = (List.range (s.height / s.height)).map some)
    ∧ (∀ g : GrayFrame,
        ((framePackets s g).tail.filterMap (fun p => lineIndexOf p.2)).Pairwise (· < ·))
    ∧ (∀ p ∈ consumerLoop s (gs.map some ++ [none]), p.1 = ISB_MESSAGE_ID) := by
  have hline : ∀ g : GrayFrame, ((framePackets s g).tail).map (fun p => lineIndexOf p.2)
      = (List.range (s.height / s.height)).map some := by
    intro g
    simp [framePackets, isbPackets, isbLinePackets, List.map_map, lineIndexOf, isbNumLines,
      frameISB, frameSprite, Function.comp_def]
  refine ⟨consumerLoop_eq_flatMap s gs, ?_, hline, ?_, ?_⟩
  · intro g
    simp [framePackets, isbPackets, isbHeaderPacket, isHeader]
  · intro g
    have h : ((framePackets s g).tail.filterMap (fun p => lineIndexOf p.2))
        = List.range (s.height / s.height) := by
      simp [framePackets, isbPackets, isbLinePackets, List.filterMap_map, lineIndexOf,
        isbNumLines, frameISB, frameSprite, Function.comp_def]
    rw [h]
    exact List.pairwise_lt_range _
  · intro p hp
    rw [consumerLoop_eq_flatMap, List.mem_flatMap] at hp
    obtain ⟨g, _, hpg⟩ := hp
    simp only [framePackets, isbPackets, List.mem_cons] at hpg
    rcases hpg with rfl | hpg
    · rfl
    · simp only [isbLinePackets, List.mem_map] at hpg
      obtain ⟨i, _, rfl⟩ := hpg
      rfl

/-- Claim C1 witness: on a one-frame session at a 1×1 target, the header
packet is in the consumer's output and is tagged with `0x20`. -/
theorem consumer_packet_ordering_witness :
    ∃ p ∈ consumerLoop (FinalStreamer.init 1 1 14) ([[[25]]].map some ++ [none]),
      p.1 = ISB_MESSAGE_ID := by
  have h := (consumer_packet_ordering (FinalStreamer.init 1 1 14) [[[25]]]).2.2.2.2
  exact ⟨isbHeaderPacket (frameISB (FinalStreamer.init 1 1 14) [[25]]), by decide,
    h _ (by decide)⟩

/-- Claim C6: on every termination of the producer loop — source
exhaustion, a failed read (both surface as `ret == False`) and an early
stop through the running flag — the producer enqueues the terminal
end-of-stream marker as its very last queue item, after a prefix of real
frames: nothing is enqueued after the marker and the marker appears only
there. -/
theorem producer_terminal_marker (frames : List RawFrame) (step fuel : ℕ) :
    ∃ items : List GrayFrame,
      producerItems frames step fuel = items.map some ++ [none] := by
  obtain ⟨gs, hgs⟩ := producerLoopTr_items_some frames step 0 fuel
  exact ⟨gs, by simp [producerItems, producerTrace, List.filterMap_append, putItem, hgs]⟩

/-- Claim C7: once the capture opens, the producer's trace starts by
acquiring the handle and ends — on source exhaustion, read failure and
early stop through the running flag alike — with exactly one release of
the handle, as its final action. -/
theorem producer_releases_capture (frames : List RawFrame) (step fuel : ℕ) :
    (producerTrace true frames step fuel).head? = some PEvent.acquire
    ∧ (producerTrace true frames step fuel).getLast? = some PEvent.release
    ∧ (producerTrace true frames step fuel).count PEvent.release = 1 := by
  refine ⟨by simp [producerTrace], ?_, ?_⟩
  · have h : producerTrace true frames step fuel
        = (PEvent.acquire :: (producerLoopTr frames step 0 fuel ++ [PEvent.put none]))
            ++ [PEvent.release] := by
      simp [producerTrace]
    rw [h, List.getLast?_concat]
  · simp [producerTrace, List.count_append, List.count_cons,
      producerLoopTr_count_release frames step 0 fuel]

/-- Claim C8: the palette is exactly 4 RGB triples flattened to 12
palette bytes, fixed at module level, computed once by the constructor,
and every header packet of every frame of every session carries those
same session palette bytes — the quantizer and packetizer never re-derive
them per frame. -/
theorem palette_fixed_and_reused :
    paletteBytes.length = 12
    ∧ FIXED_PALETTE_4_COLORS.length = 4
    ∧ (∀ c ∈ FIXED_PALETTE_4_COLORS, c.length = 3)
    ∧ (∀ (w h fps : ℕ) (gs : List GrayFrame) (p : Packet),
        p ∈ consumerLoop (FinalStreamer.init w h fps) (gs.map some ++ [none]) →
        isHeader p.2 = true → packetPalette p.2 = some paletteBytes) := by
  refine ⟨by decide, by decide, by decide, ?_⟩
  intro w h fps gs p hmem hhd
  rw [consumerLoop_eq_flatMap, List.mem_flatMap] at hmem
  obtain ⟨g, _, hpg⟩ := hmem
  simp only [framePackets, isbPackets, List.mem_cons] at hpg
  rcases hpg with rfl | hpg
  · simp [isbHeaderPacket, packetPalette, frameISB, frameSprite, FinalStreamer.init]
  · simp only [isbLinePackets, List.mem_map] at hpg
    obtain ⟨i, _, rfl⟩ := hpg
    simp [isHeader] at hhd

/-- Claim C8 witness: the concrete header packet of a 1×1 session is in
the consumer output and carries the 12 session palette bytes. -/
theorem palette_fixed_and_reused_witness :
    packetPalette (isbHeaderPacket (frameISB (FinalStreamer.init 1 1 14) [[25]])).2
      = some paletteBytes :=
  palette_fixed_and_reused.2.2.2 1 1 14 [[[25]]]
    (isbHeaderPacket (frameISB (FinalStreamer.init 1 1 14) [[25]])) (by decide) (by decide)

/-- Claim C9: the pipeline queue capacity is fixed at 4; a step can only
grow the queue when it is strictly below capacity (an enqueue attempt on
a full queue is not enabled until the consumer drains an item); and in
every reachable state the queue holds at most `C` items and the producer
at most `C + 1` in-flight frames (`C` queued plus the one being decoded). -/
theorem queue_capacity_backpressure :
    QUEUE_CAPACITY = 4
    ∧ (∀ s t : PipeState, PipeStep s t → s.queued.length < t.queued.length →
        s.queued.length < QUEUE_CAPACITY)
    ∧ (∀ s : PipeState, PipeReachable s →
        s.queued.length ≤ QUEUE_CAPACITY ∧ inFlight s ≤ QUEUE_CAPACITY + 1) := by
  refine ⟨rfl, ?_, ?_⟩
  · intro s t hst hlt
    cases hst with
    | startDecode n hd => simp at hlt
    | enqueue n hd hlen => exact hlen
    | dequeue x rest hq => rw [hq] at hlt; simp at hlt
  · intro s hs
    induction hs with
    | refl => simp [pipeInit, inFlight]
    | tail hab hbc ih =>
        obtain ⟨ih1, ih2⟩ := ih
        cases hbc with
        | startDecode n hd =>
            refine ⟨ih1, ?_⟩
            simp [inFlight]
            omega
        | enqueue n hd hlen =>
            refine ⟨?_, ?_⟩
            · simp
              omega
            · simp [inFlight]
              omega
        | dequeue x rest hq =>
            rw [hq] at ih1
            simp only [List.length_cons] at ih1
            refine ⟨?_, ?_⟩
            · simp
              omega
            · simp only [inFlight, hq, List.length_cons] at ih2 ⊢
              omega

/-- Claim C9 witness: the initial state is reachable and satisfies the
bounds, and a concrete enabled enqueue that grows the queue starts below
capacity. -/
theorem queue_capacity_backpressure_witness :
    pipeInit.queued.length ≤ QUEUE_CAPACITY
    ∧ inFlight pipeInit ≤ QUEUE_CAPACITY + 1
    ∧ (⟨[], some 7⟩ : PipeState).queued.length < QUEUE_CAPACITY := by
  have h1 := queue_capacity_backpressure.2.2 pipeInit Relation.ReflTransGen.refl
  have h2 := queue_capacity_backpressure.2.1 ⟨[], some 7⟩ ⟨[7], none⟩
    (PipeStep.enqueue _ 7 rfl (by decide)) (by decide)
  exact ⟨h1.1, h1.2, h2⟩

/-- Claim C10: the consumer builds every frame's block with
`sprite_line_height` equal to the full sprite height and progressive
render disabled, so (for a nonempty target height) the block has exactly
one line packet, whose data is the sprite's entire pixel payload. -/
theorem frame_single_line_block (w h fps : ℕ) (g : GrayFrame) (hh : 0 < h) :
    (frameISB (FinalStreamer.init w h fps) g).sprite_line_height
        = (frameSprite (FinalStreamer.init w h fps) g).height
    ∧ (frameISB (FinalStreamer.init w h fps) g).progressive_render = false
    ∧ isbLinePackets (frameISB (FinalStreamer.init w h fps) g)
        = [(ISB_MESSAGE_ID, PacketPayload.line 0
            (frameSprite (FinalStreamer.init w h fps) g).pixel_data)] := by
  refine ⟨rfl, rfl, ?_⟩
  have hlen : (encodedPixels (FinalStreamer.init w h fps) g).length ≤ h * w := by
    rw [encodedPixels_length]
    simp [FinalStreamer.init, Nat.mul_comm]
  simp only [FinalStreamer.init] at hlen
  simp [isbLinePackets, isbNumLines, frameISB, frameSprite, FinalStreamer.init,
    Nat.div_self hh, List.range_succ, List.take_of_length_le hlen]

/-- Claim C10 witness: evaluated at the 1×1 target on a concrete frame. -/
theorem frame_single_line_block_witness :
    0 < 1
    ∧ isbLinePackets (frameISB (FinalStreamer.init 1 1 14) [[25]])
        = [(ISB_MESSAGE_ID, PacketPayload.line 0
            (frameSprite (FinalStreamer.init 1 1 14) [[25]]).pixel_data)] :=
  ⟨Nat.one_pos, (frame_single_line_block 1 1 14 [[25]] Nat.one_pos).2.2⟩
